import Mathlib

/-!
Verification development for the `gfft` generalized Fourier transform
orchestrator (`src/gfft.py`).

The embedding follows the source closely:
* coordinates, grid spacings and the oversampling ratio `alpha` are modelled
  as rationals (the Python floats carry exact decimal values in all the
  orchestration arithmetic that the claims are about);
* `numpy` arrays are modelled as total functions from index vectors to an
  abstract value type `α`, together with an explicit shape list;
* the external collaborators (the dense FFT `np.fft.fftn` / `np.fft.ifftn`
  and the `gridding` module, which is not part of the source file) are
  abstract parameters bundled in a `Prims` structure;
* Python exceptions are an explicit error type returned through `Except`.
-/

namespace GFFT

/-- Python `int(q)` on a float: truncation toward zero. -/
def pyInt (q : ℚ) : ℤ := if 0 ≤ q then ⌊q⌋ else -⌊-q⌋

/-- Truncate a rational to a natural number the way `numpy` coerces a float
used as an array dimension or slice offset. -/
def ratToNat (q : ℚ) : ℕ := (pyInt q).toNat

/-- A 1-D `numpy` array of axis coordinates. -/
abbrev Coords := List ℚ

/-- A `(dx, nx)` tuple describing a regular axis: pixel spacing and count. -/
abbrev GridSpec := ℚ × ℕ

/-- One element of a plain `in_ax` / `out_ax` list: either a coordinate
array (irregular axis) or a `(dx, nx)` tuple (regular axis). -/
inductive AxisEntry : Type
  | coords (c : Coords)
  | grid (g : GridSpec)
deriving DecidableEq

/-- The `in_ax` / `out_ax` argument: either a plain Python list of axis
entries, or the tuple form `([arrays], [(dx, nx) tuples])` used to describe
the intermediate working grid for the fully irregular mode. Validation in
the source (lines 157-180) forces the tuple to hold exactly two lists of
these shapes, so the representation builds that in. -/
inductive AxesArg : Type
  | plain (l : List AxisEntry)
  | paired (cs : List Coords) (gs : List GridSpec)
deriving DecidableEq

/-- `type(ax) == tuple` in the source. -/
def AxesArg.isTuple : AxesArg → Bool
  | .plain _ => false
  | .paired _ _ => true

/-- Python `len(ax)`: length of the plain list, or 2 for the tuple form. -/
def AxesArg.len : AxesArg → ℕ
  | .plain l => l.length
  | .paired _ _ => 2

/-- The four modes of operation (source lines 128-132). -/
inductive Mode : Type
  | RR | IR | RI | II
deriving DecidableEq

/-- Errors surfaced by the call, classified by the taxonomy of the spec.
`typeErr` stands for the Python `TypeError`s of the validation section,
`configErr` for the malformed-request `Exception`s, `dimErr` for the
unsupported-dimensionality `Exception` of line 254, `notYetSupported` for
the line-826 `Exception` of the fully irregular mode, and `indexErr` for a
Python `IndexError`. -/
inductive Err : Type
  | typeErr | configErr | dimErr | notYetSupported | indexErr
deriving DecidableEq

/-- Warnings emitted by the call (`warnings.warn` at lines 221-224 and
295-296). -/
inductive Warn : Type
  | outAxIgnored | shiftOnly
deriving DecidableEq

/-- A scalar-or-per-axis configuration argument. -/
inductive SOL (γ : Type) : Type
  | scalar (v : γ)
  | list (l : List γ)

/-- Mode classification and dimensionality, source lines 214-256.
Returns the mode, `N`, and whether the `out_ax`-ignored warning of lines
221-224 fires. Every branch is subject to the `N == 0` check of line 250
("Something went wrong in setting the mode and dimensionality"): in the
RR branch it fires for a 0-d input field. -/
def classify (ndim : ℕ) (in_ax out_ax : AxesArg) : Except Err (Mode × ℕ × Bool) :=
  match in_ax with
  | .plain [] =>
    if ndim = 0 then .error .configErr
    else .ok (.RR, ndim, decide (out_ax.len ≠ 0))
  | _ =>
    if in_ax.isTuple || out_ax.isTuple then
      -- irregular to irregular transformation
      let n := if out_ax.isTuple then in_ax.len else out_ax.len
      if n = 0 then .error .configErr else .ok (.II, n, false)
    else
      match in_ax, out_ax with
      | .plain il, .plain ol =>
        let m := match il.head? with
          | some (.grid _) => Mode.RI
          | _ => Mode.IR
        if ol.length ≠ il.length then .error .typeErr
        else if il.length = 0 then .error .configErr
        else .ok (m, il.length, false)
      | _, _ => .error .configErr

/-- Resolved FFT/IFFT directions (source lines 266-289): the `do_fft` /
`do_ifft` flags and the axis lists handed to `np.fft.fftn` / `ifftn`.
`none` models the Python `None` sentinel (all axes); `some l` models an
explicit axis list `l`. -/
structure FTPlan : Type where
  do_fft : Bool
  do_ifft : Bool
  fftaxes : Option (List ℕ)
  ifftaxes : Option (List ℕ)
deriving DecidableEq

/-- Python `str.lower()`, as a per-character map on the underlying
character list. -/
def pyLower (s : String) : String := ⟨s.data.map Char.toLower⟩

/-- Append an axis index to an accumulated axis list. -/
def pushAx : Option (List ℕ) → ℕ → Option (List ℕ)
  | none, _ => none
  | some l, i => some (l ++ [i])

/-- One iteration of the `ftmachine` list loop (source lines 283-289). -/
def ftStep (p : FTPlan) (is : ℕ × String) : FTPlan :=
  if pyLower is.2 = "fft" then ⟨true, p.do_ifft, pushAx p.fftaxes is.1, p.ifftaxes⟩
  else if pyLower is.2 = "ifft" then ⟨p.do_fft, true, p.fftaxes, pushAx p.ifftaxes is.1⟩
  else p

/-- Resolve the `ftmachine` argument (source lines 266-289). -/
def resolveFT (n : ℕ) : SOL String → Except Err FTPlan
  | .scalar s =>
    if pyLower s = "fft" then .ok ⟨true, false, none, some []⟩
    else if pyLower s = "ifft" then .ok ⟨false, true, some [], none⟩
    else .ok ⟨false, false, some [], some []⟩
  | .list l =>
    if l.length ≠ n then .error .configErr
    else .ok (l.enum.foldl ftStep ⟨false, false, some [], some []⟩)

/-- The condition of source lines 293-298 under which no Fourier transform
is requested and the mode is forced back to `MODE_RR`. -/
def noFT (p : FTPlan) : Prop :=
  (p.do_fft = false ∧ p.do_ifft = false) ∨ (p.fftaxes = some [] ∧ p.ifftaxes = some [])

instance : DecidablePred noFT := fun p => by
  unfold noFT; infer_instance

/-- A resolved pre- or post-shift plan (source lines 303-333): whether any
`fftshift` happens, and the axis argument handed to it (`none` = Python
`None` = all axes). -/
structure ShiftPlan : Type where
  doShift : Bool
  axes : Option (List ℕ)
deriving DecidableEq

/-- Resolve `in_zero_center` / `out_zero_center` (source lines 309-333). -/
def resolveShift (n : ℕ) : SOL Bool → Except Err ShiftPlan
  | .scalar b =>
    if b then .ok ⟨true, none⟩ else .ok ⟨false, some []⟩
  | .list l =>
    if l.length ≠ n then .error .configErr
    else .ok ⟨l.any id, some ((List.range l.length).filter fun i => l.getD i false)⟩

/-- Resolve `enforce_hermitian_symmetry` into the per-axis list
`hermitianized_axes` (source lines 338-357). -/
def resolveHerm (n : ℕ) : SOL Bool → Except Err (List Bool)
  | .scalar b => .ok (List.replicate n b)
  | .list l =>
    if l.length ≠ n then .error .configErr else .ok l

theorem resolveHerm_length {n : ℕ} {h : SOL Bool} {l : List Bool}
    (hh : resolveHerm n h = .ok l) : l.length = n := by
  cases h with
  | scalar b =>
    simp only [resolveHerm, Except.ok.injEq] at hh
    simp [← hh]
  | list l2 =>
    simp only [resolveHerm] at hh
    by_cases hl : l2.length = n
    · simp [hl] at hh
      simp [← hh, hl]
    · simp [hl] at hh

/-! ### Arrays and shifting -/

/-- An N-D `numpy` array: a total function from index vectors to values.
Only indices that are valid for the shape of the array are meaningful. -/
abbrev NDArr (α : Type) := List ℕ → α

/-- Whether axis `i` is selected by an `axes` argument of the `np.fft`
functions: Python `None` selects every axis. -/
def onAxis (axes : Option (List ℕ)) (i : ℕ) : Bool :=
  match axes with
  | none => true
  | some l => l.contains i

/-- The index transformation of `np.fft.fftshift(x, axes)`: the shifted
array reads entry `idx` from entry `(idx + (n - n / 2)) % n` of the
original along each selected axis of length `n` (a cyclic rotation by
`n / 2`). -/
def shiftIdx (shape : List ℕ) (axes : Option (List ℕ)) (idx : List ℕ) : List ℕ :=
  (List.range shape.length).map fun i =>
    let ni := shape.getD i 0
    let xi := idx.getD i 0
    if onAxis axes i then (xi + (ni - ni / 2)) % ni else xi

/-- `np.fft.fftshift` on the array model. -/
def fftshiftA {α : Type} (shape : List ℕ) (axes : Option (List ℕ)) (a : NDArr α) : NDArr α :=
  fun idx => a (shiftIdx shape axes idx)

/-- Elementwise division of arrays (`out / gc` in the source). -/
def divA {α : Type} [Div α] (a b : NDArr α) : NDArr α := fun idx => a idx / b idx

/-- Cropping: `out[o0:o0+n0, o1:o1+n1, ...]` reads entry `idx` from entry
`idx + offs` of the original. -/
def cropA {α : Type} (offs : List ℕ) (a : NDArr α) : NDArr α :=
  fun idx => a (List.zipWith (fun x o => x + o) idx offs)

/-- Whether `idx` lies inside the box `[offs, offs + dims)`. -/
def inBox (offs dims : List ℕ) (idx : List ℕ) : Bool :=
  (List.range offs.length).all fun i =>
    offs.getD i 0 ≤ idx.getD i 0 && idx.getD i 0 < offs.getD i 0 + dims.getD i 0

/-- Zero-padding: a fresh zero array of which the box `[offs, offs + dims)`
is overwritten with `src` (the `inp_oversam[xl:xl+Nx, ...] = inp`
statements of the source). -/
def padA {α : Type} [Zero α] (offs dims : List ℕ) (src : NDArr α) : NDArr α :=
  fun idx =>
    if inBox offs dims idx then src (List.zipWith (fun x o => x - o) idx offs) else 0

/-! ### External collaborators

The dense FFT and the `gridding` module are external to the source file
(`from gfft import gridding`; `gridding.py` is not part of the sources).
They are abstract parameters of the model. Scalar arguments of the
gridding calls are passed as a positional list of rationals so that the
argument order at each call site is recorded faithfully. -/

structure Prims (α : Type) : Type where
  fftn : NDArr α → Option (List ℕ) → NDArr α
  ifftn : NDArr α → Option (List ℕ) → NDArr α
  grid_1d : Coords → NDArr α → List ℚ → Bool → NDArr α
  grid_2d : Coords → Coords → NDArr α → List ℚ → Bool → Bool → NDArr α
  grid_3d : Coords → Coords → Coords → NDArr α → List ℚ → Bool → Bool → Bool → NDArr α
  degrid_1d : Coords → NDArr α → List ℚ → List α
  degrid_2d : Coords → Coords → NDArr α → List ℚ → List α
  degrid_3d : Coords → Coords → Coords → NDArr α → List ℚ → List α
  corr_1d : List ℚ → NDArr α
  corr_2d : List ℚ → NDArr α
  corr_3d : List ℚ → NDArr α

/-- The output array: a regular N-D array (RR and IR modes) or a flat list
of samples (RI and II modes). -/
inductive Out (α : Type) : Type
  | reg (a : NDArr α)
  | flat (l : List α)

/-! ### Per-mode grid parameters -/

/-- Derived parameters of one axis of a (final or working) grid: spacing,
pixel count, and origin. The count is kept as a rational because the
fully irregular branch computes unfloored counts. -/
structure AxP : Type where
  d : ℚ
  n : ℚ
  mn : ℚ
deriving DecidableEq

/-- `-0.5 * n * d`, the zero-centered grid origin. -/
def mHalf (n d : ℚ) : ℚ := -(1/2) * n * d

/-- Whether a shift plan shifts axis `i`: `preshift_axes == None` shifts
every axis, otherwise `preshift_axes.count(i) > 0` (source lines 463-480
and analogues). -/
def shifted (sp : ShiftPlan) (i : ℕ) : Bool := sp.doShift && onAxis sp.axes i

/-- Python indexing `e[0]`, `e[1]` on an axis entry: a `(dx, nx)` tuple
yields its components; indexing a coordinate array yields its elements. -/
def getPair : AxisEntry → ℚ × ℚ
  | .grid g => (g.1, (g.2 : ℚ))
  | .coords c => (c.getD 0 0, c.getD 1 0)

/-- The coordinate array `in_ax[i]` (or `out_ax[i]`). A `(dx, nx)` entry
read as an array is represented by its two components. -/
def coordAt (l : List AxisEntry) (i : ℕ) : Coords :=
  match l.getD i (.coords []) with
  | .coords c => c
  | .grid g => [g.1, (g.2 : ℚ)]

/-- IR mode, N = 1 (source lines 433-446): final-grid and working-grid
parameters for the single axis, as `(x-axis, u-axis)`. -/
def irP1 (alpha : ℚ) (pre post : ShiftPlan) (e0 : AxisEntry) : AxP × AxP :=
  let dx := (getPair e0).1
  let nx := (getPair e0).2
  let xmin := if post.doShift then mHalf nx dx else 0
  let du := 1/dx/nx/alpha
  let nu : ℚ := ((pyInt (alpha * nx) : ℤ) : ℚ)
  let umin := if pre.doShift then mHalf nu du else 0
  (⟨dx, nx, xmin⟩, ⟨du, nu, umin⟩)

/-- IR mode, N = 2 (source lines 448-480). -/
def irP2 (alpha : ℚ) (pre post : ShiftPlan) (e0 e1 : AxisEntry) :
    (AxP × AxP) × (AxP × AxP) :=
  let dx := (getPair e0).1
  let nx := (getPair e0).2
  let du := 1/dx/nx/alpha
  let nu : ℚ := ((pyInt (alpha * nx) : ℤ) : ℚ)
  let dy := (getPair e1).1
  let ny := (getPair e1).2
  let dv := 1/dy/ny/alpha
  let nv : ℚ := ((pyInt (alpha * ny) : ℤ) : ℚ)
  let umin := if shifted pre 0 then mHalf nu du else 0
  let vmin := if shifted pre 1 then mHalf nv dv else 0
  let xmin := if shifted post 0 then mHalf nx dx else 0
  let ymin := if shifted post 1 then mHalf ny dy else 0
  ((⟨dx, nx, xmin⟩, ⟨du, nu, umin⟩), (⟨dy, ny, ymin⟩, ⟨dv, nv, vmin⟩))

/-- IR mode, N = 3 (source lines 487-533). -/
def irP3 (alpha : ℚ) (pre post : ShiftPlan) (e0 e1 e2 : AxisEntry) :
    (AxP × AxP) × (AxP × AxP) × (AxP × AxP) :=
  let dx := (getPair e0).1
  let nx := (getPair e0).2
  let du := 1/dx/nx/alpha
  let nu : ℚ := ((pyInt (alpha * nx) : ℤ) : ℚ)
  let dy := (getPair e1).1
  let ny := (getPair e1).2
  let dv := 1/dy/ny/alpha
  let nv : ℚ := ((pyInt (alpha * ny) : ℤ) : ℚ)
  let dz := (getPair e2).1
  let nz := (getPair e2).2
  let dw := 1/dz/nz/alpha
  let nw : ℚ := ((pyInt (alpha * nz) : ℤ) : ℚ)
  let umin := if shifted pre 0 then mHalf nu du else 0
  let vmin := if shifted pre 1 then mHalf nv dv else 0
  let wmin := if shifted pre 2 then mHalf nw dw else 0
  let xmin := if shifted post 0 then mHalf nx dx else 0
  let ymin := if shifted post 1 then mHalf ny dy else 0
  let zmin := if shifted post 2 then mHalf nz dz else 0
  ((⟨dx, nx, xmin⟩, ⟨du, nu, umin⟩), (⟨dy, ny, ymin⟩, ⟨dv, nv, vmin⟩),
    (⟨dz, nz, zmin⟩, ⟨dw, nw, wmin⟩))

/-- RI mode, N = 1 (source lines 624-634). Note that the roles of the two
shifts are mirrored relative to IR mode: `xmin` follows the pre-shift and
`umin` the post-shift. -/
def riP1 (alpha : ℚ) (pre post : ShiftPlan) (e0 : AxisEntry) : AxP × AxP :=
  let dx := (getPair e0).1
  let nx := (getPair e0).2
  let xmin := if pre.doShift then mHalf nx dx else 0
  let du := 1/dx/nx/alpha
  let nu : ℚ := ((pyInt (alpha * nx) : ℤ) : ℚ)
  let umin := if post.doShift then mHalf nu du else 0
  (⟨dx, nx, xmin⟩, ⟨du, nu, umin⟩)

/-- RI mode, N = 2 (source lines 636-668). -/
def riP2 (alpha : ℚ) (pre post : ShiftPlan) (e0 e1 : AxisEntry) :
    (AxP × AxP) × (AxP × AxP) :=
  let dx := (getPair e0).1
  let nx := (getPair e0).2
  let du := 1/dx/nx/alpha
  let nu : ℚ := ((pyInt (alpha * nx) : ℤ) : ℚ)
  let dy := (getPair e1).1
  let ny := (getPair e1).2
  let dv := 1/dy/ny/alpha
  let nv : ℚ := ((pyInt (alpha * ny) : ℤ) : ℚ)
  let umin := if shifted post 0 then mHalf nu du else 0
  let vmin := if shifted post 1 then mHalf nv dv else 0
  let xmin := if shifted pre 0 then mHalf nx dx else 0
  let ymin := if shifted pre 1 then mHalf ny dy else 0
  ((⟨dx, nx, xmin⟩, ⟨du, nu, umin⟩), (⟨dy, ny, ymin⟩, ⟨dv, nv, vmin⟩))

/-- RI mode, N = 3 (source lines 670-715). -/
def riP3 (alpha : ℚ) (pre post : ShiftPlan) (e0 e1 e2 : AxisEntry) :
    (AxP × AxP) × (AxP × AxP) × (AxP × AxP) :=
  let dx := (getPair e0).1
  let nx := (getPair e0).2
  let du := 1/dx/nx/alpha
  let nu : ℚ := ((pyInt (alpha * nx) : ℤ) : ℚ)
  let dy := (getPair e1).1
  let ny := (getPair e1).2
  let dv := 1/dy/ny/alpha
  let nv : ℚ := ((pyInt (alpha * ny) : ℤ) : ℚ)
  let dz := (getPair e2).1
  let nz := (getPair e2).2
  let dw := 1/dz/nz/alpha
  let nw : ℚ := ((pyInt (alpha * nz) : ℤ) : ℚ)
  let umin := if shifted post 0 then mHalf nu du else 0
  let vmin := if shifted post 1 then mHalf nv dv else 0
  let wmin := if shifted post 2 then mHalf nw dw else 0
  let xmin := if shifted pre 0 then mHalf nx dx else 0
  let ymin := if shifted pre 1 then mHalf ny dy else 0
  let zmin := if shifted pre 2 then mHalf nz dz else 0
  ((⟨dx, nx, xmin⟩, ⟨du, nu, umin⟩), (⟨dy, ny, ymin⟩, ⟨dv, nv, vmin⟩),
    (⟨dz, nz, zmin⟩, ⟨dw, nw, wmin⟩))

/-- II mode (grid supplied through `out_ax`), N = 1 (source lines
916-928). `Nu = int(Nx * alpha)` is floored. -/
def iiP1 (alpha : ℚ) (pre post : ShiftPlan) (g0 : GridSpec) : AxP × AxP :=
  let dx := g0.1
  let nx : ℚ := (g0.2 : ℚ)
  let xmin := if post.doShift then mHalf nx dx else 0
  let du := 1/dx/nx/alpha
  let nu : ℚ := ((pyInt (nx * alpha) : ℤ) : ℚ)
  let umin := if pre.doShift then mHalf nu du else 0
  (⟨dx, nx, xmin⟩, ⟨du, nu, umin⟩)

/-- II mode, N = 2 (source lines 930-962). `Nu = int(alpha * Nx)` is
floored, but `Nv = alpha * Ny` (line 942) is not. -/
def iiP2 (alpha : ℚ) (pre post : ShiftPlan) (g0 g1 : GridSpec) :
    (AxP × AxP) × (AxP × AxP) :=
  let dx := g0.1
  let nx : ℚ := (g0.2 : ℚ)
  let du := 1/dx/nx/alpha
  let nu : ℚ := ((pyInt (alpha * nx) : ℤ) : ℚ)
  let dy := g1.1
  let ny : ℚ := (g1.2 : ℚ)
  let dv := 1/dy/ny/alpha
  let nv : ℚ := alpha * ny
  let umin := if shifted pre 0 then mHalf nu du else 0
  let vmin := if shifted pre 1 then mHalf nv dv else 0
  let xmin := if shifted post 0 then mHalf nx dx else 0
  let ymin := if shifted post 1 then mHalf ny dy else 0
  ((⟨dx, nx, xmin⟩, ⟨du, nu, umin⟩), (⟨dy, ny, ymin⟩, ⟨dv, nv, vmin⟩))

/-- II mode, N = 3 (source lines 967-1012). `Nv = alpha * Ny` (line 979)
and `Nw = alpha * Nz` (line 986) are not floored. -/
def iiP3 (alpha : ℚ) (pre post : ShiftPlan) (g0 g1 g2 : GridSpec) :
    (AxP × AxP) × (AxP × AxP) × (AxP × AxP) :=
  let dx := g0.1
  let nx : ℚ := (g0.2 : ℚ)
  let du := 1/dx/nx/alpha
  let nu : ℚ := ((pyInt (alpha * nx) : ℤ) : ℚ)
  let dy := g1.1
  let ny : ℚ := (g1.2 : ℚ)
  let dv := 1/dy/ny/alpha
  let nv : ℚ := alpha * ny
  let dz := g2.1
  let nz : ℚ := (g2.2 : ℚ)
  let dw := 1/dz/nz/alpha
  let nw : ℚ := alpha * nz
  let umin := if shifted pre 0 then mHalf nu du else 0
  let vmin := if shifted pre 1 then mHalf nv dv else 0
  let wmin := if shifted pre 2 then mHalf nw dw else 0
  let xmin := if shifted post 0 then mHalf nx dx else 0
  let ymin := if shifted post 1 then mHalf ny dy else 0
  let zmin := if shifted post 2 then mHalf nz dz else 0
  ((⟨dx, nx, xmin⟩, ⟨du, nu, umin⟩), (⟨dy, ny, ymin⟩, ⟨dv, nv, vmin⟩),
    (⟨dz, nz, zmin⟩, ⟨dw, nw, wmin⟩))

/-! ### The scalar arguments handed to the gridding engine

Each list records, in positional order, the scalar arguments of one call
into the `gridding` module. -/

/-- Scalars of the IR-mode `gridding.grid_2d` call, source lines 482-484:
`(..., du, Nu, umin, dv, Nv, vmin, alpha, W, ...)`. -/
def irGrid2dScalars (du nu umin dv nv vmin alpha w : ℚ) : List ℚ :=
  [du, nu, umin, dv, nv, vmin, alpha, w]

/-- Scalars of the II-mode `gridding.grid_2d` call, source lines
1023-1026: `(..., du, Nu, umin, dv, Nv, vmin, W, alpha, ...)`. -/
def iiGrid2dScalars (du nu umin dv nv vmin alpha w : ℚ) : List ℚ :=
  [du, nu, umin, dv, nv, vmin, w, alpha]

/-- Scalars of the IR-mode `gridding.grid_3d` call, source lines 535-538:
`(..., dw, Nw, wmin, alpha, W, ...)`. -/
def irGrid3dScalars (du nu umin dv nv vmin dw nw wmin alpha w : ℚ) : List ℚ :=
  [du, nu, umin, dv, nv, vmin, dw, nw, wmin, alpha, w]

/-- Scalars of the II-mode `gridding.grid_3d` call, source lines
1027-1031: `(..., dw, Nw, wmin, W, alpha, ...)`. -/
def iiGrid3dScalars (du nu umin dv nv vmin dw nw wmin alpha w : ℚ) : List ℚ :=
  [du, nu, umin, dv, nv, vmin, dw, nw, wmin, w, alpha]

/-! ### Per-mode pipelines -/

/-- The `MODE_RR` pipeline, source lines 403-422: optional pre-shift, FFT
and/or IFFT over the configured axes, optional post-shift. -/
def rrRun {α : Type} (P : Prims α) (shape : List ℕ) (ft : FTPlan)
    (pre post : ShiftPlan) (inp : NDArr α) : NDArr α :=
  let a := if pre.doShift then fftshiftA shape pre.axes inp else inp
  let b := if ft.do_fft then P.fftn a ft.fftaxes else a
  let c := if ft.do_ifft then P.ifftn b ft.ifftaxes else b
  if post.doShift then fftshiftA shape post.axes c else c

/-- The mode-specific data of the `MODE_IR` pipeline: the gridding call,
the working-grid shape, the cropping offsets, and the grid-correction
array. -/
structure IRPieces (α : Type) : Type where
  grid : NDArr α → NDArr α
  shape : List ℕ
  cropOffs : List ℕ
  gc : NDArr α

/-- Assemble the `MODE_IR` pieces, source lines 433-538 and 556-607. -/
def irPieces {α : Type} (P : Prims α) (in_l out_l : List AxisEntry)
    (pre post : ShiftPlan) (hz : List Bool) (w : ℕ) (alpha : ℚ) :
    Except Err (IRPieces α) :=
  match out_l with
  | [e0] =>
    let p := irP1 alpha pre post e0
    let x0 := p.1
    let u0 := p.2
    let tndxx := ratToNat ((1/2) * x0.n * (alpha - 1))
    .ok ⟨fun c => P.grid_1d (coordAt in_l 0) c [u0.d, u0.n, u0.mn, alpha, (w : ℚ)]
        (hz.getD 0 false),
      [ratToNat u0.n],
      [if post.doShift then tndxx else 0],
      P.corr_1d [x0.d, x0.n, x0.mn, u0.d, (w : ℚ), alpha]⟩
  | [e0, e1] =>
    let p := irP2 alpha pre post e0 e1
    let x0 := p.1.1
    let u0 := p.1.2
    let x1 := p.2.1
    let u1 := p.2.2
    let tndxx := ratToNat ((1/2) * x0.n * (alpha - 1))
    let tndxy := ratToNat ((1/2) * x1.n * (alpha - 1))
    .ok ⟨fun c => P.grid_2d (coordAt in_l 0) (coordAt in_l 1) c
        (irGrid2dScalars u0.d u0.n u0.mn u1.d u1.n u1.mn alpha (w : ℚ))
        (hz.getD 0 false) (hz.getD 1 false),
      [ratToNat u0.n, ratToNat u1.n],
      [if shifted post 0 then tndxx else 0, if shifted post 1 then tndxy else 0],
      P.corr_2d [x0.d, x0.n, x0.mn, x1.d, x1.n, x1.mn, u0.d, u1.d, (w : ℚ), alpha]⟩
  | [e0, e1, e2] =>
    let p := irP3 alpha pre post e0 e1 e2
    let x0 := p.1.1
    let u0 := p.1.2
    let x1 := p.2.1.1
    let u1 := p.2.1.2
    let x2 := p.2.2.1
    let u2 := p.2.2.2
    let tndxx := ratToNat ((1/2) * x0.n * (alpha - 1))
    let tndxy := ratToNat ((1/2) * x1.n * (alpha - 1))
    let tndxz := ratToNat ((1/2) * x2.n * (alpha - 1))
    .ok ⟨fun c => P.grid_3d (coordAt in_l 0) (coordAt in_l 1) (coordAt in_l 2) c
        (irGrid3dScalars u0.d u0.n u0.mn u1.d u1.n u1.mn u2.d u2.n u2.mn alpha (w : ℚ))
        (hz.getD 0 false) (hz.getD 1 false) (hz.getD 2 false),
      [ratToNat u0.n, ratToNat u1.n, ratToNat u2.n],
      [if shifted post 0 then tndxx else 0, if shifted post 1 then tndxy else 0,
        if shifted post 2 then tndxz else 0],
      P.corr_3d [x0.d, x0.n, x0.mn, x1.d, x1.n, x1.mn, x2.d, x2.n, x2.mn,
        u0.d, u1.d, u2.d, (w : ℚ), alpha]⟩
  | _ => .error .configErr

/-- The `MODE_IR` pipeline, source lines 427-613: grid, shift, transform,
shift, crop, divide by the grid correction. -/
def irRun {α : Type} [Div α] (P : Prims α) (inp : NDArr α)
    (in_l out_l : List AxisEntry) (ft : FTPlan) (pre post : ShiftPlan)
    (hz : List Bool) (w : ℕ) (alpha : ℚ) : Except Err (Out α) :=
  match irPieces P in_l out_l pre post hz w alpha with
  | .error e => .error e
  | .ok pc =>
    let inp_grid := pc.grid inp
    let a := if pre.doShift then fftshiftA pc.shape pre.axes inp_grid else inp_grid
    let b := if ft.do_fft then P.fftn a ft.fftaxes else a
    let c := if ft.do_ifft then P.ifftn b ft.ifftaxes else b
    let o := if post.doShift then fftshiftA pc.shape post.axes c else c
    .ok (.reg (divA (cropA pc.cropOffs o) pc.gc))

/-- The mode-specific data of the `MODE_RI` pipeline: the grid-correction
array dividing the input, the zero-padding placement, the working-grid
shape, and the degridding call. -/
structure RIPieces (α : Type) : Type where
  gc : NDArr α
  padOffs : List ℕ
  padDims : List ℕ
  shape : List ℕ
  degrid : NDArr α → List α

/-- Assemble the `MODE_RI` pieces, source lines 624-715 and 718-811. -/
def riPieces {α : Type} (P : Prims α) (in_l out_l : List AxisEntry)
    (pre post : ShiftPlan) (w : ℕ) (alpha : ℚ) : Except Err (RIPieces α) :=
  match in_l with
  | [e0] =>
    let p := riP1 alpha pre post e0
    let x0 := p.1
    let u0 := p.2
    let tndxx := ratToNat ((1/2) * x0.n * (alpha - 1))
    .ok ⟨P.corr_1d [x0.d, x0.n, x0.mn, u0.d, (w : ℚ), alpha],
      [if pre.doShift then tndxx else 0],
      [ratToNat x0.n],
      [ratToNat u0.n],
      fun o => P.degrid_1d (coordAt out_l 0) o [u0.d, u0.n, u0.mn, alpha, (w : ℚ)]⟩
  | [e0, e1] =>
    let p := riP2 alpha pre post e0 e1
    let x0 := p.1.1
    let u0 := p.1.2
    let x1 := p.2.1
    let u1 := p.2.2
    let tndxx := ratToNat ((1/2) * x0.n * (alpha - 1))
    let tndxy := ratToNat ((1/2) * x1.n * (alpha - 1))
    .ok ⟨P.corr_2d [x0.d, x0.n, x0.mn, x1.d, x1.n, x1.mn, u0.d, u1.d, (w : ℚ), alpha],
      [if shifted pre 0 then tndxx else 0, if shifted pre 1 then tndxy else 0],
      [ratToNat x0.n, ratToNat x1.n],
      [ratToNat u0.n, ratToNat u1.n],
      fun o => P.degrid_2d (coordAt out_l 0) (coordAt out_l 1) o
        [u0.d, u0.n, u0.mn, u1.d, u1.n, u1.mn, alpha, (w : ℚ)]⟩
  | [e0, e1, e2] =>
    let p := riP3 alpha pre post e0 e1 e2
    let x0 := p.1.1
    let u0 := p.1.2
    let x1 := p.2.1.1
    let u1 := p.2.1.2
    let x2 := p.2.2.1
    let u2 := p.2.2.2
    let tndxx := ratToNat ((1/2) * x0.n * (alpha - 1))
    let tndxy := ratToNat ((1/2) * x1.n * (alpha - 1))
    let tndxz := ratToNat ((1/2) * x2.n * (alpha - 1))
    .ok ⟨P.corr_3d [x0.d, x0.n, x0.mn, x1.d, x1.n, x1.mn, x2.d, x2.n, x2.mn,
        u0.d, u1.d, u2.d, (w : ℚ), alpha],
      [if shifted pre 0 then tndxx else 0, if shifted pre 1 then tndxy else 0,
        if shifted pre 2 then tndxz else 0],
      [ratToNat x0.n, ratToNat x1.n, ratToNat x2.n],
      [ratToNat u0.n, ratToNat u1.n, ratToNat u2.n],
      fun o => P.degrid_3d (coordAt out_l 0) (coordAt out_l 1) (coordAt out_l 2) o
        [u0.d, u0.n, u0.mn, u1.d, u1.n, u1.mn, u2.d, u2.n, u2.mn, alpha, (w : ℚ)]⟩
  | _ => .error .configErr

/-- The `MODE_RI` pipeline, source lines 618-817: divide by the grid
correction, zero-pad into the oversampled array, shift, transform, shift,
degrid. -/
def riRun {α : Type} [Div α] [Zero α] (P : Prims α) (inp : NDArr α)
    (in_l out_l : List AxisEntry) (ft : FTPlan) (pre post : ShiftPlan)
    (w : ℕ) (alpha : ℚ) : Except Err (Out α) :=
  match riPieces P in_l out_l pre post w alpha with
  | .error e => .error e
  | .ok pc =>
    let inp2 := divA inp pc.gc
    let inp_oversam := padA pc.padOffs pc.padDims inp2
    let a := if pre.doShift then fftshiftA pc.shape pre.axes inp_oversam else inp_oversam
    let b := if ft.do_fft then P.fftn a ft.fftaxes else a
    let c := if ft.do_ifft then P.ifftn b ft.ifftaxes else b
    let o := if post.doShift then fftshiftA pc.shape post.axes c else c
    .ok (.flat (pc.degrid o))

/-- The mode-specific data of the `MODE_II` pipeline (working grid given
through `out_ax`): the gridding call, the working-grid correction, the
zero-padding placement into the doubly oversampled array, its shape, the
inflated grid correction, and the degridding call. -/
structure IIPieces (α : Type) : Type where
  grid : NDArr α → NDArr α
  gc1 : NDArr α
  padOffs : List ℕ
  padDims : List ℕ
  shape : List ℕ
  gc2 : NDArr α
  degrid : NDArr α → List α

/-- Assemble the `MODE_II` pieces, source lines 914-1014 and 1020-1148. -/
def iiPieces {α : Type} (P : Prims α) (in_l : List AxisEntry)
    (cs : List Coords) (gs : List GridSpec)
    (pre post : ShiftPlan) (hz : List Bool) (w : ℕ) (alpha : ℚ) :
    Except Err (IIPieces α) :=
  match in_l with
  | [_] =>
    let p := iiP1 alpha pre post (gs.getD 0 (0, 0))
    let x0 := p.1
    let u0 := p.2
    .ok ⟨fun c => P.grid_1d (coordAt in_l 0) c [u0.d, u0.n, u0.mn, alpha, (w : ℚ)]
        (hz.getD 0 false),
      P.corr_1d [u0.d, u0.n, u0.mn, x0.d/alpha, (w : ℚ), alpha],
      [if pre.doShift then ratToNat ((1/2) * u0.n * (alpha - 1)) else 0],
      [ratToNat u0.n],
      [ratToNat (u0.n * alpha)],
      P.corr_1d [x0.d/alpha, alpha^2 * x0.n, alpha * x0.mn, u0.d, (w : ℚ), alpha],
      fun o => P.degrid_1d (cs.getD 0 []) o
        [x0.d/alpha, alpha^2 * x0.n, alpha * x0.mn, alpha, (w : ℚ)]⟩
  | [_, _] =>
    let p := iiP2 alpha pre post (gs.getD 0 (0, 0)) (gs.getD 1 (0, 0))
    let x0 := p.1.1
    let u0 := p.1.2
    let x1 := p.2.1
    let u1 := p.2.2
    .ok ⟨fun c => P.grid_2d (coordAt in_l 0) (coordAt in_l 1) c
        (iiGrid2dScalars u0.d u0.n u0.mn u1.d u1.n u1.mn alpha (w : ℚ))
        (hz.getD 0 false) (hz.getD 1 false),
      P.corr_2d [u0.d, u0.n, u0.mn, u1.d, u1.n, u1.mn,
        x0.d/alpha, x1.d/alpha, (w : ℚ), alpha],
      [if shifted pre 0 then ratToNat ((1/2) * u0.n * (alpha - 1)) else 0,
        if shifted pre 1 then ratToNat ((1/2) * u1.n * (alpha - 1)) else 0],
      [ratToNat u0.n, ratToNat u1.n],
      [ratToNat (u0.n * alpha), ratToNat (u1.n * alpha)],
      P.corr_2d [x0.d/alpha, alpha^2 * x0.n, alpha * x0.mn,
        x1.d/alpha, alpha^2 * x1.n, alpha * x1.mn, u0.d, u1.d, (w : ℚ), alpha],
      fun o => P.degrid_2d (cs.getD 0 []) (cs.getD 1 []) o
        [x0.d/alpha, alpha^2 * x0.n, alpha * x0.mn,
          x1.d/alpha, alpha^2 * x1.n, alpha * x1.mn, alpha, (w : ℚ)]⟩
  | [_, _, _] =>
    let p := iiP3 alpha pre post (gs.getD 0 (0, 0)) (gs.getD 1 (0, 0)) (gs.getD 2 (0, 0))
    let x0 := p.1.1
    let u0 := p.1.2
    let x1 := p.2.1.1
    let u1 := p.2.1.2
    let x2 := p.2.2.1
    let u2 := p.2.2.2
    .ok ⟨fun c => P.grid_3d (coordAt in_l 0) (coordAt in_l 1) (coordAt in_l 2) c
        (iiGrid3dScalars u0.d u0.n u0.mn u1.d u1.n u1.mn u2.d u2.n u2.mn alpha (w : ℚ))
        (hz.getD 0 false) (hz.getD 1 false) (hz.getD 2 false),
      P.corr_3d [u0.d, u0.n, u0.mn, u1.d, u1.n, u1.mn, u2.d, u2.n, u2.mn,
        x0.d/alpha, x1.d/alpha, x2.d/alpha, (w : ℚ), alpha],
      [if shifted pre 0 then ratToNat ((1/2) * u0.n * (alpha - 1)) else 0,
        if shifted pre 1 then ratToNat ((1/2) * u1.n * (alpha - 1)) else 0,
        if shifted pre 2 then ratToNat ((1/2) * u2.n * (alpha - 1)) else 0],
      [ratToNat u0.n, ratToNat u1.n, ratToNat u2.n],
      [ratToNat (u0.n * alpha), ratToNat (u1.n * alpha), ratToNat (u2.n * alpha)],
      P.corr_3d [x0.d/alpha, alpha^2 * x0.n, alpha * x0.mn,
        x1.d/alpha, alpha^2 * x1.n, alpha * x1.mn,
        x2.d/alpha, alpha^2 * x2.n, alpha * x2.mn, u0.d, u1.d, u2.d, (w : ℚ), alpha],
      fun o => P.degrid_3d (cs.getD 0 []) (cs.getD 1 []) (cs.getD 2 []) o
        [x0.d/alpha, alpha^2 * x0.n, alpha * x0.mn,
          x1.d/alpha, alpha^2 * x1.n, alpha * x1.mn,
          x2.d/alpha, alpha^2 * x2.n, alpha * x2.mn, alpha, (w : ℚ)]⟩
  | _ => .error .configErr

/-- The `MODE_II` pipeline, source lines 822-1154. When the working grid
is supplied through `in_ax` the source raises immediately (line 826:
"Defining grid on in_ax in MODE_II not yet supported"). Otherwise the
working grid comes from the `out_ax` tuple: grid, divide by the working
grid correction, zero-pad into the doubly oversampled array, shift,
transform, shift, divide by the inflated grid correction, degrid. -/
def iiRun {α : Type} [Div α] [Zero α] (P : Prims α) (inp : NDArr α)
    (in_ax out_ax : AxesArg) (ft : FTPlan) (pre post : ShiftPlan)
    (hz : List Bool) (w : ℕ) (alpha : ℚ) : Except Err (Out α) :=
  if in_ax.isTuple then .error .notYetSupported
  else
    match in_ax, out_ax with
    | .plain in_l, .paired cs gs =>
      match iiPieces P in_l cs gs pre post hz w alpha with
      | .error e => .error e
      | .ok pc =>
        let inp_grid := pc.grid inp
        let g1 := divA inp_grid pc.gc1
        let g2 := padA pc.padOffs pc.padDims g1
        let a := if pre.doShift then fftshiftA pc.shape pre.axes g2 else g2
        let b := if ft.do_fft then P.fftn a ft.fftaxes else a
        let c := if ft.do_ifft then P.ifftn b ft.ifftaxes else b
        let o := if post.doShift then fftshiftA pc.shape post.axes c else c
        let o2 := divA o pc.gc2
        .ok (.flat (pc.degrid o2))
    | _, _ => .error .configErr

/-- The full `gfft` call, source lines 35-1154: validation, mode
classification, dimensionality check, per-axis configuration resolution,
then the per-mode pipeline. Returns the warnings emitted and the result. -/
def gfft {α : Type} [Zero α] [Div α] (P : Prims α)
    (inp : NDArr α) (inpShape : List ℕ) (in_ax out_ax : AxesArg)
    (ftm : SOL String) (in_zc out_zc : SOL Bool) (herm : SOL Bool)
    (w : ℕ) (alpha : ℚ) : Except Err (List Warn × Out α) :=
  if in_ax.isTuple && out_ax.isTuple then .error .typeErr
  else
    match classify inpShape.length in_ax out_ax with
    | .error e => .error e
    | .ok (m0, n, warnRR) =>
      if 3 < n ∧ m0 ≠ Mode.RR then .error .dimErr
      else
        match resolveFT n ftm with
        | .error e => .error e
        | .ok ftp =>
          let mode := if noFT ftp then Mode.RR else m0
          match resolveShift n in_zc with
          | .error e => .error e
          | .ok pre =>
            match resolveShift n out_zc with
            | .error e => .error e
            | .ok post =>
              match resolveHerm n herm with
              | .error e => .error e
              | .ok hz =>
                if hz.length ≠ n then .error .configErr
                else
                  let warns := (if warnRR then [Warn.outAxIgnored] else []) ++
                    (if noFT ftp then [Warn.shiftOnly] else [])
                  match mode with
                  | .RR => .ok (warns, .reg (rrRun P inpShape ftp pre post inp))
                  | .IR =>
                    match in_ax, out_ax with
                    | .plain il, .plain ol =>
                      (irRun P inp il ol ftp pre post hz w alpha).map fun o => (warns, o)
                    | _, _ => .error .configErr
                  | .RI =>
                    match in_ax, out_ax with
                    | .plain il, .plain ol =>
                      (riRun P inp il ol ftp pre post w alpha).map fun o => (warns, o)
                    | _, _ => .error .configErr
                  | .II =>
                    (iiRun P inp in_ax out_ax ftp pre post hz w alpha).map fun o => (warns, o)

/-! ### Allocation trace model

Every `numpy` array statement executed by one `gfft` call either allocates
a fresh array (all the `np.fft` results, copies, divisions, grid
corrections, zero buffers and gridding results are new arrays) or writes
into an array allocated earlier in the same call (the slice assignments
`inp_oversam[...] = inp` and `inp_grid_os[...] = inp_grid` target the
freshly allocated zero buffers). The trace model makes this explicit:
a store holds the pre-existing arrays of the caller (`base`, the input field
among them) followed by the arrays allocated by the call (`news`), and
each statement is an allocation or an overwrite of a call-local cell. -/

/-- One array statement: allocate a fresh cell computed from the store, or
overwrite the `k`-th cell allocated by this call. -/
inductive Stmt (β : Type) : Type
  | alloc (f : List β → List β → β)
  | overwrite (k : ℕ) (f : List β → List β → β)

/-- Run a statement list over the store `base ++ news`. -/
def runStmts {β : Type} (base : List β) : List (Stmt β) → List β → List β
  | [], news => base ++ news
  | .alloc f :: rest, news => runStmts base rest (news ++ [f base news])
  | .overwrite k f :: rest, news => runStmts base rest (news.set k (f base news))

/-- The current value of the pipeline variable: the most recently
allocated array, or the input field of the caller if nothing has been
allocated yet. -/
def curOr {α : Type} [Zero α] (b : List (NDArr α)) (inpIx : ℕ)
    (news : List (NDArr α)) : NDArr α :=
  match news.getLast? with
  | some a => a
  | none => b.getD inpIx fun _ => 0

/-- The array allocated `k` statements ago. -/
def back {α : Type} [Zero α] (k : ℕ) (news : List (NDArr α)) : NDArr α :=
  news.getD (news.length - k) fun _ => 0

/-- The `MODE_RR` statement trace, source lines 403-422. -/
def rrStmts {α : Type} [Zero α] (P : Prims α) (shape : List ℕ) (ft : FTPlan)
    (pre post : ShiftPlan) (inpIx : ℕ) : List (Stmt (NDArr α)) :=
  (if pre.doShift then
    [Stmt.alloc fun b news => fftshiftA shape pre.axes (curOr b inpIx news)] else [])
  ++ [Stmt.alloc fun b news =>
      if ft.do_fft then P.fftn (curOr b inpIx news) ft.fftaxes else curOr b inpIx news]
  ++ (if ft.do_ifft then
    [Stmt.alloc fun b news => P.ifftn (curOr b inpIx news) ft.ifftaxes] else [])
  ++ (if post.doShift then
    [Stmt.alloc fun b news => fftshiftA shape post.axes (curOr b inpIx news)] else [])

/-- The `MODE_IR` statement trace, source lines 427-613: complex copy of
the input (line 430), gridding, shifts and transforms, then the grid
correction and the final division (the crop of lines 559-605 is a
non-allocating view, folded into the division statement). -/
def irStmts {α : Type} [Zero α] [Div α] (P : Prims α) (ft : FTPlan)
    (pre post : ShiftPlan) (pc : IRPieces α) (inpIx : ℕ) : List (Stmt (NDArr α)) :=
  [Stmt.alloc fun b news => curOr b inpIx news,
    Stmt.alloc fun b news => pc.grid (curOr b inpIx news)]
  ++ (if pre.doShift then
    [Stmt.alloc fun b news => fftshiftA pc.shape pre.axes (curOr b inpIx news)] else [])
  ++ [Stmt.alloc fun b news =>
      if ft.do_fft then P.fftn (curOr b inpIx news) ft.fftaxes else curOr b inpIx news]
  ++ (if ft.do_ifft then
    [Stmt.alloc fun b news => P.ifftn (curOr b inpIx news) ft.ifftaxes] else [])
  ++ (if post.doShift then
    [Stmt.alloc fun b news => fftshiftA pc.shape post.axes (curOr b inpIx news)] else [])
  ++ [Stmt.alloc fun _ _ => pc.gc,
    Stmt.alloc fun b news => divA (cropA pc.cropOffs (back 2 news)) (curOr b inpIx news)]

/-- The `MODE_RI` statement trace, source lines 618-817: complex copy,
grid correction, division of the input, zero buffer, slice assignment
into the zero buffer (the only in-place write, targeting call-local cell
3), then shifts and transforms. The degridded flat output is the value
returned to the caller. -/
def riStmts {α : Type} [Zero α] [Div α] (P : Prims α) (ft : FTPlan)
    (pre post : ShiftPlan) (pc : RIPieces α) (inpIx : ℕ) : List (Stmt (NDArr α)) :=
  [Stmt.alloc fun b news => curOr b inpIx news,
    Stmt.alloc fun _ _ => pc.gc,
    Stmt.alloc fun b news => divA (news.getD 0 fun _ => 0) (curOr b inpIx news),
    Stmt.alloc fun _ _ => fun _ => 0,
    Stmt.overwrite 3 fun _ news => padA pc.padOffs pc.padDims (news.getD 2 fun _ => 0)]
  ++ (if pre.doShift then
    [Stmt.alloc fun b news => fftshiftA pc.shape pre.axes (curOr b inpIx news)] else [])
  ++ [Stmt.alloc fun b news =>
      if ft.do_fft then P.fftn (curOr b inpIx news) ft.fftaxes else curOr b inpIx news]
  ++ (if ft.do_ifft then
    [Stmt.alloc fun b news => P.ifftn (curOr b inpIx news) ft.ifftaxes] else [])
  ++ (if post.doShift then
    [Stmt.alloc fun b news => fftshiftA pc.shape post.axes (curOr b inpIx news)] else [])

/-- The `MODE_II` statement trace (working grid through `out_ax`), source
lines 1016-1148: complex copy, gridding, working-grid correction and
division, zero buffer, slice assignment into the zero buffer (call-local
cell 4), shifts and transforms, inflated grid correction and division.
The degridded flat output is the value returned to the caller. -/
def iiStmts {α : Type} [Zero α] [Div α] (P : Prims α) (ft : FTPlan)
    (pre post : ShiftPlan) (pc : IIPieces α) (inpIx : ℕ) : List (Stmt (NDArr α)) :=
  [Stmt.alloc fun b news => curOr b inpIx news,
    Stmt.alloc fun b news => pc.grid (curOr b inpIx news),
    Stmt.alloc fun _ _ => pc.gc1,
    Stmt.alloc fun _ news => divA (news.getD 1 fun _ => 0) (news.getD 2 fun _ => 0),
    Stmt.alloc fun _ _ => fun _ => 0,
    Stmt.overwrite 4 fun _ news => padA pc.padOffs pc.padDims (news.getD 3 fun _ => 0)]
  ++ (if pre.doShift then
    [Stmt.alloc fun b news => fftshiftA pc.shape pre.axes (curOr b inpIx news)] else [])
  ++ [Stmt.alloc fun b news =>
      if ft.do_fft then P.fftn (curOr b inpIx news) ft.fftaxes else curOr b inpIx news]
  ++ (if ft.do_ifft then
    [Stmt.alloc fun b news => P.ifftn (curOr b inpIx news) ft.ifftaxes] else [])
  ++ (if post.doShift then
    [Stmt.alloc fun b news => fftshiftA pc.shape post.axes (curOr b inpIx news)] else [])
  ++ [Stmt.alloc fun _ _ => pc.gc2,
    Stmt.alloc fun b news => divA (back 2 news) (curOr b inpIx news)]

/-- The statement trace of a full `gfft` call: the same staging as `gfft`
(a request that fails validation or configuration resolution executes no
array statement), dispatching to the per-mode trace. The input
field of the caller lives at store cell `inpIx`. -/
def gfftStmts {α : Type} [Zero α] [Div α] (P : Prims α)
    (inpIx : ℕ) (inpShape : List ℕ) (in_ax out_ax : AxesArg)
    (ftm : SOL String) (in_zc out_zc : SOL Bool) (herm : SOL Bool)
    (w : ℕ) (alpha : ℚ) : Except Err (List (Stmt (NDArr α))) :=
  if in_ax.isTuple && out_ax.isTuple then .error .typeErr
  else
    match classify inpShape.length in_ax out_ax with
    | .error e => .error e
    | .ok (m0, n, _) =>
      if 3 < n ∧ m0 ≠ Mode.RR then .error .dimErr
      else
        match resolveFT n ftm with
        | .error e => .error e
        | .ok ftp =>
          let mode := if noFT ftp then Mode.RR else m0
          match resolveShift n in_zc with
          | .error e => .error e
          | .ok pre =>
            match resolveShift n out_zc with
            | .error e => .error e
            | .ok post =>
              match resolveHerm n herm with
              | .error e => .error e
              | .ok hz =>
                if hz.length ≠ n then .error .configErr
                else
                  match mode with
                  | .RR => .ok (rrStmts P inpShape ftp pre post inpIx)
                  | .IR =>
                    match in_ax, out_ax with
                    | .plain il, .plain ol =>
                      (irPieces P il ol pre post hz w alpha).map fun pc =>
                        irStmts P ftp pre post pc inpIx
                    | _, _ => .error .configErr
                  | .RI =>
                    match in_ax, out_ax with
                    | .plain il, .plain ol =>
                      (riPieces P il ol pre post w alpha).map fun pc =>
                        riStmts P ftp pre post pc inpIx
                    | _, _ => .error .configErr
                  | .II =>
                    if in_ax.isTuple then .error .notYetSupported
                    else
                      match in_ax, out_ax with
                      | .plain il, .paired cs gs =>
                        (iiPieces P il cs gs pre post hz w alpha).map fun pc =>
                          iiStmts P ftp pre post pc inpIx
                      | _, _ => .error .configErr

/-- The store after a `gfft` call: on success the statement trace is run,
on failure no array statement has executed. -/
def gfftStore {α : Type} [Zero α] [Div α] (P : Prims α) (base : List (NDArr α))
    (inpIx : ℕ) (inpShape : List ℕ) (in_ax out_ax : AxesArg)
    (ftm : SOL String) (in_zc out_zc : SOL Bool) (herm : SOL Bool)
    (w : ℕ) (alpha : ℚ) : List (NDArr α) :=
  match gfftStmts P inpIx inpShape in_ax out_ax ftm in_zc out_zc herm w alpha with
  | .error _ => base
  | .ok l => runStmts base l []

/-! ### The brute-force oracle transforms `dft` and `idft` -/

/-- The inner product `sum_k in_ax[k][j] * out_ax[k][i]` of the phase of
the direct summation transforms (source lines 1198-1200 and 1234-1236). -/
noncomputable def phaseSum (in_ax out_ax : List (List ℝ)) (j i : ℕ) : ℝ :=
  ((List.range in_ax.length).map fun k =>
    (in_ax.getD k []).getD j 0 * (out_ax.getD k []).getD i 0).sum

/-- `complex(cos(c), sin(c))`, the phase factor of the summation. -/
noncomputable def cisC (c : ℝ) : ℂ := ⟨Real.cos c, Real.sin c⟩

/-- The brute-force direct summation transform `dft`, source lines
1172-1206: phase `-2*pi*psum`, result divided by the number of input
values. -/
noncomputable def dft (in_vals : List ℂ) (in_ax out_ax : List (List ℝ)) :
    Except Err (List ℂ) :=
  if out_ax.length ≠ in_ax.length then .error .configErr
  else
    match out_ax with
    | [] => .error .indexErr
    | o0 :: _ =>
      if (∀ a ∈ in_ax, a.length = in_vals.length) ∧ (∀ a ∈ out_ax, a.length = o0.length)
      then
        .ok ((List.range o0.length).map fun i =>
          ((List.range in_vals.length).map fun j =>
            in_vals.getD j 0 * cisC (-2 * Real.pi * phaseSum in_ax out_ax j i)).sum
            / (in_vals.length : ℂ))
      else .error .configErr

/-- The brute-force inverse summation transform `idft`, source lines
1208-1242: identical to `dft` except for the phase `+2*pi*psum`. -/
noncomputable def idft (in_vals : List ℂ) (in_ax out_ax : List (List ℝ)) :
    Except Err (List ℂ) :=
  if out_ax.length ≠ in_ax.length then .error .configErr
  else
    match out_ax with
    | [] => .error .indexErr
    | o0 :: _ =>
      if (∀ a ∈ in_ax, a.length = in_vals.length) ∧ (∀ a ∈ out_ax, a.length = o0.length)
      then
        .ok ((List.range o0.length).map fun i =>
          ((List.range in_vals.length).map fun j =>
            in_vals.getD j 0 * cisC (2 * Real.pi * phaseSum in_ax out_ax j i)).sum
            / (in_vals.length : ℂ))
      else .error .configErr

/-! ### Concrete instantiation of the external collaborators, for
evaluating the model at concrete inputs. -/

/-- A trivial instantiation of the external primitives over `ℤ` values. -/
def trivPrims : Prims ℤ :=
  ⟨fun a _ => a, fun a _ => a,
    fun _ a _ _ => a, fun _ _ a _ _ _ => a, fun _ _ _ a _ _ _ _ => a,
    fun _ _ _ => [], fun _ _ _ _ => [], fun _ _ _ _ _ => [],
    fun _ _ => 1, fun _ _ => 1, fun _ _ => 1⟩

/-! ### Claims -/

/-- Claim C1. The spec says that in the fully irregular (II) mode the
auxiliary working grid is resolved from whichever side carries the paired
`(coordinates, grid-specs)` form, so a request with the paired form on the
input side and a plain coordinate list on the output side should complete
the grid, transform, degrid pipeline. The code does not: line 826 raises
`Exception("Defining grid on in_ax in MODE_II not yet supported...")`
unconditionally whenever `in_ax` is the paired form, contradicting the
docstring (lines 76-86) and the spec. Evaluated here on a concrete such
request: for every choice of external primitives, the call fails. -/
theorem gfft_ii_input_paired_raises {α : Type} [Zero α] [Div α]
    (P : Prims α) (inp : NDArr α) :
    gfft P inp [1] (.paired [[0]] [(1, 4)]) (.plain [.coords [0]])
      (.scalar "fft") (.scalar true) (.scalar true) (.scalar false) 6 (3/2) =
      .error .notYetSupported := rfl

/-- Claim C9. The orchestrator does NOT pass `alpha` and `W` in the same
positions in the IR-mode and II-mode gridding calls: in IR mode
`grid_2d(..., alpha, W, ...)` (lines 482-484), in II mode
`grid_2d(..., W, alpha, ...)` (lines 1023-1026), and likewise for
`grid_3d` (lines 535-538 versus 1027-1031). With `alpha = 3/2`, `W = 6`
the two scalar argument vectors differ in their last two slots. -/
theorem grid2d_arg_order_differs :
    irGrid2dScalars 1 2 0 1 2 0 (3/2) 6 ≠ iiGrid2dScalars 1 2 0 1 2 0 (3/2) 6 ∧
    (irGrid2dScalars 1 2 0 1 2 0 (3/2) 6).getD 6 0 = 3/2 ∧
    (irGrid2dScalars 1 2 0 1 2 0 (3/2) 6).getD 7 0 = 6 ∧
    (iiGrid2dScalars 1 2 0 1 2 0 (3/2) 6).getD 6 0 = 6 ∧
    (iiGrid2dScalars 1 2 0 1 2 0 (3/2) 6).getD 7 0 = 3/2 ∧
    irGrid3dScalars 1 2 0 1 2 0 1 2 0 (3/2) 6 ≠
      iiGrid3dScalars 1 2 0 1 2 0 1 2 0 (3/2) 6 := by
  refine ⟨?_, ?_, ?_, ?_, ?_, ?_⟩ <;>
    simp [irGrid2dScalars, iiGrid2dScalars, irGrid3dScalars, iiGrid3dScalars,
      List.getD] <;> norm_num

/-- Claim C2. The spec says the working-grid size is
`floor(alpha * finalSize)` for every gridded axis. This holds in IR and RI
modes and for the first axis of II mode, but in II mode the second and
third axis sizes are computed as `alpha * Ny` (line 942) and
`alpha * Nz` (line 986) without flooring. Concretely, for `alpha = 3/2`
and final sizes `(4, 5)`, the II-mode working sizes are `6` and `15/2`,
and `15/2` is not `floor(3/2 * 5) = 7`. -/
theorem ii_workgrid_size_not_floored :
    ((iiP2 (3/2) ⟨false, some []⟩ ⟨false, some []⟩ (1, 4) (1, 5)).1.2).n = 6 ∧
    ((iiP2 (3/2) ⟨false, some []⟩ ⟨false, some []⟩ (1, 4) (1, 5)).2.2).n = 15/2 ∧
    (15 : ℚ)/2 ≠ ((⌊(3/2 : ℚ) * ((5 : ℕ) : ℚ)⌋ : ℤ) : ℚ) ∧
    (6 : ℚ) = ((⌊(3/2 : ℚ) * ((4 : ℕ) : ℚ)⌋ : ℤ) : ℚ) := by
  refine ⟨?_, ?_, ?_, ?_⟩ <;>
    norm_num [iiP2, pyInt, shifted, mHalf]

theorem resolveFT_error_configErr {n : ℕ} {f : SOL String} {e : Err}
    (h : resolveFT n f = .error e) : e = .configErr := by
  cases f with
  | scalar s =>
    unfold resolveFT at h
    by_cases h1 : pyLower s = "fft"
    · simp [h1] at h
    · by_cases h2 : pyLower s = "ifft" <;> simp [h1, h2] at h
  | list l =>
    unfold resolveFT at h
    by_cases hl : l.length = n
    · simp [hl] at h
    · simp [hl] at h
      exact h.symm

theorem resolveShift_error_configErr {n : ℕ} {f : SOL Bool} {e : Err}
    (h : resolveShift n f = .error e) : e = .configErr := by
  cases f with
  | scalar b => cases b <;> simp [resolveShift] at h
  | list l =>
    unfold resolveShift at h
    by_cases hl : l.length = n
    · simp [hl] at h
    · simp [hl] at h
      exact h.symm

theorem resolveHerm_error_configErr {n : ℕ} {f : SOL Bool} {e : Err}
    (h : resolveHerm n f = .error e) : e = .configErr := by
  cases f with
  | scalar b => simp [resolveHerm] at h
  | list l =>
    unfold resolveHerm at h
    by_cases hl : l.length = n
    · simp [hl] at h
    · simp [hl] at h
      exact h.symm

theorem resolveFT_list_len {n : ℕ} {l : List String} {p : FTPlan}
    (h : resolveFT n (.list l) = .ok p) : l.length = n := by
  unfold resolveFT at h
  by_cases hl : l.length = n
  · exact hl
  · simp [hl] at h

theorem resolveShift_list_len {n : ℕ} {l : List Bool} {p : ShiftPlan}
    (h : resolveShift n (.list l) = .ok p) : l.length = n := by
  unfold resolveShift at h
  by_cases hl : l.length = n
  · exact hl
  · simp [hl] at h

theorem resolveHerm_list_len {n : ℕ} {l p : List Bool}
    (h : resolveHerm n (.list l) = .ok p) : l.length = n := by
  unfold resolveHerm at h
  by_cases hl : l.length = n
  · exact hl
  · simp [hl] at h

theorem classify_both_paired {ndim : ℕ} {cs gs cs2 gs2 : List _} {m : Mode}
    {n : ℕ} {wr : Bool}
    (h : classify ndim (.paired cs gs) (.paired cs2 gs2) = .ok (m, n, wr)) :
    n = 2 := by
  simp only [classify, AxesArg.isTuple, AxesArg.len] at h
  simp at h
  omega

/-- Claim C3. For every request whose classified mode is a gridded mode
(IR, RI or II) with dimensionality `N > 3`, the call fails with the
dimensionality error of the documented taxonomy (source line 254), before
any transform or gridding work: the result is independent of the external
primitives. -/
theorem gfft_dim_error {α : Type} [Zero α] [Div α] (P : Prims α) (inp : NDArr α)
    (inpShape : List ℕ) (in_ax out_ax : AxesArg) (ftm : SOL String)
    (izc ozc hz : SOL Bool) (w : ℕ) (alpha : ℚ) {m : Mode} {n : ℕ} {wr : Bool}
    (hc : classify inpShape.length in_ax out_ax = .ok (m, n, wr))
    (hm2 : m ≠ Mode.RR) (hn : 3 < n) :
    gfft P inp inpShape in_ax out_ax ftm izc ozc hz w alpha = .error .dimErr := by
  have hbt : (in_ax.isTuple && out_ax.isTuple) = false := by
    cases in_ax with
    | plain l => simp [AxesArg.isTuple]
    | paired cs gs =>
      cases out_ax with
      | plain l2 => simp [AxesArg.isTuple]
      | paired cs2 gs2 =>
        exfalso
        have h2 := classify_both_paired hc
        omega
  simp only [gfft, hbt, Bool.false_eq_true, if_false, hc]
  rw [if_pos ⟨hn, hm2⟩]

/-- Claim C6. For every otherwise well-formed request (validation passes,
the mode and `N` are determined, the dimensionality check passes) in which
any of the per-axis configuration arguments (`ftmachine`,
`in_zero_center`, `out_zero_center`, `enforce_hermitian_symmetry`) is an
explicit list whose length differs from `N`, the call fails with the
configuration error (source lines 279-281, 313-315, 326-328, 348-351),
and it does so before any numeric work: the result is independent of the
external primitives, and the statement trace of the call is an error as
well, so no working array is allocated. -/
theorem gfft_list_length_config_error {α : Type} [Zero α] [Div α] (P : Prims α)
    (inp : NDArr α) (inpShape : List ℕ) (in_ax out_ax : AxesArg)
    (ftm : SOL String) (izc ozc hz : SOL Bool) (w : ℕ) (alpha : ℚ)
    {m : Mode} {n : ℕ} {wr : Bool}
    (hbt : (in_ax.isTuple && out_ax.isTuple) = false)
    (hc : classify inpShape.length in_ax out_ax = .ok (m, n, wr))
    (hd : ¬(3 < n ∧ m ≠ Mode.RR))
    (hbad : (∃ l, ftm = SOL.list l ∧ l.length ≠ n) ∨
      (∃ l, izc = SOL.list l ∧ l.length ≠ n) ∨
      (∃ l, ozc = SOL.list l ∧ l.length ≠ n) ∨
      (∃ l, hz = SOL.list l ∧ l.length ≠ n)) :
    gfft P inp inpShape in_ax out_ax ftm izc ozc hz w alpha = .error .configErr ∧
    gfftStmts P 0 inpShape in_ax out_ax ftm izc ozc hz w alpha =
      (.error .configErr : Except Err (List (Stmt (NDArr α)))) := by
  constructor <;>
  · simp only [gfft, gfftStmts, hbt, Bool.false_eq_true, if_false, hc]
    rw [if_neg hd]
    rcases hft : resolveFT n ftm with fe | ftp
    · have hfe := resolveFT_error_configErr hft
      subst hfe
      simp [hft]
    · rcases hpre : resolveShift n izc with pe | pre
      · have hpe := resolveShift_error_configErr hpre
        subst hpe
        simp [hpre]
      · rcases hpost : resolveShift n ozc with qe | post
        · have hqe := resolveShift_error_configErr hpost
          subst hqe
          simp [hpost]
        · rcases hherm : resolveHerm n hz with he | hzl
          · have hhe := resolveHerm_error_configErr hherm
            subst hhe
            simp [hherm]
          · exfalso
            rcases hbad with ⟨l, rfl, hl⟩ | ⟨l, rfl, hl⟩ | ⟨l, rfl, hl⟩ | ⟨l, rfl, hl⟩
            · exact hl (resolveFT_list_len hft)
            · exact hl (resolveShift_list_len hpre)
            · exact hl (resolveShift_list_len hpost)
            · exact hl (resolveHerm_list_len hherm)

theorem gfft_dim_error_witness :
    classify 1 (.plain [.coords [0], .coords [0], .coords [0], .coords [0]])
      (.plain [.grid (1, 4), .grid (1, 4), .grid (1, 4), .grid (1, 4)]) =
      .ok (.IR, 4, false) ∧
    Mode.IR ≠ Mode.RR ∧ 3 < 4 ∧
    gfft trivPrims (fun _ => 0) [4]
      (.plain [.coords [0], .coords [0], .coords [0], .coords [0]])
      (.plain [.grid (1, 4), .grid (1, 4), .grid (1, 4), .grid (1, 4)])
      (.scalar "fft") (.scalar true) (.scalar true) (.scalar false) 6 (3/2) =
      .error .dimErr :=
  ⟨rfl, by decide, by decide,
    gfft_dim_error trivPrims (fun _ => 0) [4]
      (.plain [.coords [0], .coords [0], .coords [0], .coords [0]])
      (.plain [.grid (1, 4), .grid (1, 4), .grid (1, 4), .grid (1, 4)])
      (.scalar "fft") (.scalar true) (.scalar true) (.scalar false) 6 (3/2)
      rfl (by decide) (by decide)⟩

theorem gfft_list_length_config_error_witness :
    (["fft", "fft"] : List String).length ≠ 1 ∧
    (gfft trivPrims (fun _ => 0) [4] (.plain []) (.plain [])
      (.list ["fft", "fft"]) (.scalar true) (.scalar true) (.scalar false) 6 (3/2) =
      .error .configErr ∧
    gfftStmts trivPrims 0 [4] (.plain []) (.plain [])
      (.list ["fft", "fft"]) (.scalar true) (.scalar true) (.scalar false) 6 (3/2) =
      .error .configErr) :=
  ⟨by decide,
    gfft_list_length_config_error trivPrims (fun _ => 0) [4] (.plain []) (.plain [])
      (.list ["fft", "fft"]) (.scalar true) (.scalar true) (.scalar false) 6 (3/2)
      rfl rfl (by decide) (.inl ⟨["fft", "fft"], rfl, by decide⟩)⟩

/-- Claim C5. For every request with empty `inputAxes` whose input field
has rank at least one, the classification is RR with `N` equal to the
rank of the input field, whatever `out_ax` is; the `out_ax`-ignored
warning is emitted exactly when `out_ax` is non-empty, and the
computation proceeds through the regular-to-regular pipeline (which never
reads `out_ax`). A 0-d input field instead fails the `N == 0` check of
line 250 with a configuration error, in the model as in the source. -/
theorem gfft_empty_in_ax {α : Type} [Zero α] [Div α] (P : Prims α) (inp : NDArr α)
    (inpShape : List ℕ) (out_ax : AxesArg) (ftm : SOL String) (izc ozc hm : SOL Bool)
    (w : ℕ) (alpha : ℚ) {ftp : FTPlan} {pre post : ShiftPlan} {hzl : List Bool}
    (h0 : inpShape.length ≠ 0)
    (hft : resolveFT inpShape.length ftm = .ok ftp)
    (hpre : resolveShift inpShape.length izc = .ok pre)
    (hpost : resolveShift inpShape.length ozc = .ok post)
    (hherm : resolveHerm inpShape.length hm = .ok hzl) :
    classify inpShape.length (.plain []) out_ax =
      .ok (.RR, inpShape.length, decide (out_ax.len ≠ 0)) ∧
    gfft P inp inpShape (.plain []) out_ax ftm izc ozc hm w alpha =
      .ok ((if decide (out_ax.len ≠ 0) then [Warn.outAxIgnored] else []) ++
        (if noFT ftp then [Warn.shiftOnly] else []),
        .reg (rrRun P inpShape ftp pre post inp)) := by
  have hcl : classify inpShape.length (.plain []) out_ax =
      .ok (.RR, inpShape.length, decide (out_ax.len ≠ 0)) := by
    unfold classify
    rw [if_neg h0]
  refine ⟨hcl, ?_⟩
  have hbt : ((AxesArg.plain []).isTuple && out_ax.isTuple) = false := rfl
  have hlen := resolveHerm_length hherm
  simp only [gfft, hbt, Bool.false_eq_true, if_false, hcl, hft, hpre, hpost, hherm,
    ite_self, ne_eq, not_true_eq_false, and_false, if_false, hlen, not_false_eq_true,
    if_true]

theorem gfft_empty_in_ax_witness :
    ([2] : List ℕ).length ≠ 0 ∧
    resolveFT 1 (.scalar "fft") = .ok ⟨true, false, none, some []⟩ ∧
    resolveShift 1 (.scalar true) = .ok ⟨true, none⟩ ∧
    resolveShift 1 (.scalar false) = .ok ⟨false, some []⟩ ∧
    resolveHerm 1 (.scalar false) = .ok [false] ∧
    (classify 1 (.plain []) (.plain [.coords [0]]) = .ok (.RR, 1, true) ∧
    gfft trivPrims (fun _ => (0 : ℤ)) [2] (.plain []) (.plain [.coords [0]])
      (.scalar "fft") (.scalar true) (.scalar false) (.scalar false) 6 (3/2) =
      .ok ([Warn.outAxIgnored],
        .reg (rrRun trivPrims [2] ⟨true, false, none, some []⟩ ⟨true, none⟩
          ⟨false, some []⟩ (fun _ => (0 : ℤ))))) :=
  ⟨by decide, rfl, rfl, rfl, rfl,
    gfft_empty_in_ax trivPrims (fun _ => (0 : ℤ)) [2] (.plain [.coords [0]])
      (.scalar "fft") (.scalar true) (.scalar false) (.scalar false) 6 (3/2)
      (by decide) rfl rfl rfl rfl⟩

theorem getD_range_map {β : Type} (f : ℕ → β) (len j : ℕ) (d : β) (hj : j < len) :
    ((List.range len).map f).getD j d = f j := by
  simp [List.getD, List.getElem?_map, List.getElem?_range hj]

theorem shiftIdx_getD_on (shape idx : List ℕ) (k : ℕ) (hk : k < shape.length) :
    (shiftIdx shape (some [k]) idx).getD k 0 =
      (idx.getD k 0 + (shape.getD k 0 - shape.getD k 0 / 2)) % shape.getD k 0 := by
  unfold shiftIdx
  rw [getD_range_map _ _ _ _ hk]
  simp [onAxis]

theorem shiftIdx_getD_off (shape idx : List ℕ) (k j : ℕ) (hj : j < shape.length)
    (hjk : j ≠ k) :
    (shiftIdx shape (some [k]) idx).getD j 0 = idx.getD j 0 := by
  unfold shiftIdx
  rw [getD_range_map _ _ _ _ hj]
  simp [onAxis, hjk]

/-- Claim C4. For every otherwise well-formed request in which the
resolved direction is `none` on every axis, the mode is forced back to RR
(with the shift-only warning) and the call degenerates to a shift-only
pass-through. With zero-centering requested on exactly the one axis `k`
of the input side and none on the output side, the output is the input
cyclically rotated by half the length of axis `k` and is unchanged along
every other axis. -/
theorem gfft_shift_only {α : Type} [Zero α] [Div α] (P : Prims α) (inp : NDArr α)
    (inpShape : List ℕ) (in_ax out_ax : AxesArg) (ftm : SOL String)
    (izc ozc hm : SOL Bool) (w : ℕ) (alpha : ℚ) (k : ℕ)
    {m0 : Mode} {n : ℕ} {wr : Bool} {ftp : FTPlan} {post : ShiftPlan} {hzl : List Bool}
    (hbt : (in_ax.isTuple && out_ax.isTuple) = false)
    (hc : classify inpShape.length in_ax out_ax = .ok (m0, n, wr))
    (hd : ¬(3 < n ∧ m0 ≠ Mode.RR))
    (hft : resolveFT n ftm = .ok ftp)
    (hnofft : ftp.do_fft = false) (hnoifft : ftp.do_ifft = false)
    (hpre : resolveShift n izc = .ok ⟨true, some [k]⟩)
    (hpost : resolveShift n ozc = .ok post) (hpostF : post.doShift = false)
    (hherm : resolveHerm n hm = .ok hzl)
    (hk : k < inpShape.length) :
    gfft P inp inpShape in_ax out_ax ftm izc ozc hm w alpha =
      .ok ((if wr then [Warn.outAxIgnored] else []) ++ [Warn.shiftOnly],
        .reg (fftshiftA inpShape (some [k]) inp)) ∧
    (∀ idx : List ℕ, fftshiftA inpShape (some [k]) inp idx =
      inp (shiftIdx inpShape (some [k]) idx)) ∧
    (∀ idx : List ℕ, (shiftIdx inpShape (some [k]) idx).getD k 0 =
      (idx.getD k 0 + (inpShape.getD k 0 - inpShape.getD k 0 / 2)) %
        inpShape.getD k 0) ∧
    (∀ idx : List ℕ, ∀ j, j < inpShape.length → j ≠ k →
      (shiftIdx inpShape (some [k]) idx).getD j 0 = idx.getD j 0) := by
  have hnoft : noFT ftp := Or.inl ⟨hnofft, hnoifft⟩
  have hlen := resolveHerm_length hherm
  refine ⟨?_, fun idx => rfl, fun idx => shiftIdx_getD_on inpShape idx k hk,
    fun idx j hj hjk => shiftIdx_getD_off inpShape idx k j hj hjk⟩
  simp only [gfft, hbt, Bool.false_eq_true, if_false, hc]
  rw [if_neg hd]
  simp only [hft, hpre, hpost, hherm, hnoft, ite_true, hlen, ne_eq,
    not_true_eq_false, if_false, not_false_eq_true, if_true]
  simp only [rrRun, hnofft, hnoifft, hpostF, Bool.false_eq_true, if_false, if_true]

theorem gfft_shift_only_witness :
    resolveFT 1 (.scalar "none") = .ok ⟨false, false, some [], some []⟩ ∧
    resolveShift 1 (.list [true]) = .ok ⟨true, some [0]⟩ ∧
    (0 : ℕ) < 1 ∧
    gfft trivPrims (fun idx => (idx.getD 0 0 : ℤ)) [4] (.plain []) (.plain [])
      (.scalar "none") (.list [true]) (.scalar false) (.scalar false) 6 (3/2) =
      .ok ([Warn.shiftOnly],
        .reg (fftshiftA [4] (some [0]) (fun idx => (idx.getD 0 0 : ℤ)))) ∧
    (shiftIdx [4] (some [0]) [1]).getD 0 0 = 3 :=
  ⟨rfl, rfl, by decide,
    (gfft_shift_only trivPrims (fun idx => (idx.getD 0 0 : ℤ)) [4] (.plain []) (.plain [])
      (.scalar "none") (.list [true]) (.scalar false) (.scalar false) 6 (3/2) 0
      rfl rfl (by decide) rfl rfl rfl rfl rfl rfl rfl (by decide)).1,
    by decide⟩

theorem double_shift_mod (n x : ℕ) (hx : x < n) (he : n % 2 = 0) :
    ((x + (n - n / 2)) % n + (n - n / 2)) % n = x := by
  have h1 : n - n / 2 = n / 2 := by omega
  rw [h1, Nat.mod_add_mod, Nat.add_assoc]
  have h2 : n / 2 + n / 2 = n := by omega
  rw [h2, Nat.add_mod_right, Nat.mod_eq_of_lt hx]

theorem shiftIdx_double (shape idx : List ℕ) (hlen : idx.length = shape.length)
    (hv : ∀ j < shape.length, idx.getD j 0 < shape.getD j 0)
    (he : ∀ j < shape.length, shape.getD j 0 % 2 = 0) :
    shiftIdx shape none (shiftIdx shape none idx) = idx := by
  have key : ∀ i, i < shape.length →
      (shiftIdx shape none (shiftIdx shape none idx)).getD i 0 = idx.getD i 0 := by
    intro i hi
    unfold shiftIdx
    rw [getD_range_map _ _ _ _ hi, getD_range_map _ _ _ _ hi]
    simp only [onAxis, if_true]
    exact double_shift_mod _ _ (hv i hi) (he i hi)
  apply List.ext_getElem
  · simp [shiftIdx, hlen]
  · intro i h1 h2
    have hi : i < shape.length := by omega
    have h3 := key i hi
    rwa [List.getD_eq_getElem, List.getD_eq_getElem] at h3

/-- Claim C7. For an RR request on an input field of rank at least one
with direction `none` on every axis and zero-centering requested on all
axes both on input and on output, the call applies the same all-axes
half-length cyclic rotation twice, and on an input whose length is even
along every axis the two rotations cancel: the output equals the input at
every valid index. (A 0-d input field never reaches the shifts: it fails
the `N == 0` check of line 250.) -/
theorem gfft_double_shift_id {α : Type} [Zero α] [Div α] (P : Prims α)
    (inp : NDArr α) (inpShape : List ℕ) (ftm : SOL String) (hm : SOL Bool)
    (w : ℕ) (alpha : ℚ) {ftp : FTPlan} {hzl : List Bool}
    (h0 : inpShape.length ≠ 0)
    (hft : resolveFT inpShape.length ftm = .ok ftp)
    (hnofft : ftp.do_fft = false) (hnoifft : ftp.do_ifft = false)
    (hherm : resolveHerm inpShape.length hm = .ok hzl)
    (heven : ∀ j < inpShape.length, inpShape.getD j 0 % 2 = 0) :
    gfft P inp inpShape (.plain []) (.plain []) ftm (.scalar true) (.scalar true)
      hm w alpha =
      .ok ([Warn.shiftOnly],
        .reg (fftshiftA inpShape none (fftshiftA inpShape none inp))) ∧
    (∀ idx : List ℕ, idx.length = inpShape.length →
      (∀ j < inpShape.length, idx.getD j 0 < inpShape.getD j 0) →
      fftshiftA inpShape none (fftshiftA inpShape none inp) idx = inp idx) := by
  have hnoft : noFT ftp := Or.inl ⟨hnofft, hnoifft⟩
  have hlen := resolveHerm_length hherm
  constructor
  · have hcl : classify inpShape.length (.plain []) (.plain []) =
        .ok (.RR, inpShape.length, false) := by
      unfold classify
      rw [if_neg h0]
      rfl
    have hsh : resolveShift inpShape.length (.scalar true) = .ok ⟨true, none⟩ := rfl
    have hbt : ((AxesArg.plain []).isTuple && (AxesArg.plain []).isTuple) = false := rfl
    simp only [gfft, hbt, Bool.false_eq_true, if_false, hcl]
    rw [if_neg (by simp)]
    simp only [hft, hsh, hherm, hnoft, ite_true, hlen, ne_eq,
      not_true_eq_false, if_false, not_false_eq_true, if_true]
    simp only [rrRun, hnofft, hnoifft, Bool.false_eq_true, if_false, if_true]
    rfl
  · intro idx h1 h2
    exact congrArg inp (shiftIdx_double inpShape idx h1 h2 heven)

theorem gfft_double_shift_id_witness :
    ([2, 4] : List ℕ).length ≠ 0 ∧
    resolveFT 2 (.scalar "none") = .ok ⟨false, false, some [], some []⟩ ∧
    (∀ j < ([2, 4] : List ℕ).length, ([2, 4] : List ℕ).getD j 0 % 2 = 0) ∧
    gfft trivPrims (fun idx => (10 * idx.getD 0 0 + idx.getD 1 0 : ℤ)) [2, 4]
      (.plain []) (.plain []) (.scalar "none") (.scalar true) (.scalar true)
      (.scalar false) 6 (3/2) =
      .ok ([Warn.shiftOnly], .reg (fftshiftA [2, 4] none (fftshiftA [2, 4] none
        fun idx => (10 * idx.getD 0 0 + idx.getD 1 0 : ℤ)))) ∧
    fftshiftA [2, 4] none (fftshiftA [2, 4] none
      fun idx => (10 * idx.getD 0 0 + idx.getD 1 0 : ℤ)) [1, 3] =
      (fun idx => (10 * idx.getD 0 0 + idx.getD 1 0 : ℤ)) [1, 3] :=
  have h := gfft_double_shift_id trivPrims
    (fun idx => (10 * idx.getD 0 0 + idx.getD 1 0 : ℤ)) [2, 4]
    (.scalar "none") (.scalar false) 6 (3/2) (by decide) rfl rfl rfl rfl (by decide)
  ⟨by decide, rfl, by decide, h.1, h.2 [1, 3] (by decide) (by decide)⟩

theorem runStmts_frame {β : Type} (base : List β) (l : List (Stmt β)) :
    ∀ (news : List β) (j : ℕ), j < base.length →
      (runStmts base l news)[j]? = base[j]? := by
  induction l with
  | nil =>
    intro news j hj
    simp [runStmts, List.getElem?_append, hj]
  | cons s rest ih =>
    intro news j hj
    cases s with
    | alloc f => simpa [runStmts] using ih _ j hj
    | overwrite k f => simpa [runStmts] using ih _ j hj

/-- Claim C8. Every array statement of a `gfft` call either allocates a
fresh array or overwrites an array allocated earlier in the same call (the
zero-padding buffers), so the pre-existing arrays of the caller — the input
field and any coordinate arrays held in the store — are unchanged when the
call returns, and also when it fails (a failing call executes no array
statement). The only effect of the call is its freshly allocated output,
and no state persists across calls: the final store depends only on the
arguments. -/
theorem gfft_store_frame {α : Type} [Zero α] [Div α] (P : Prims α)
    (base : List (NDArr α)) (inpIx : ℕ) (inpShape : List ℕ)
    (in_ax out_ax : AxesArg) (ftm : SOL String) (izc ozc hm : SOL Bool)
    (w : ℕ) (alpha : ℚ) (j : ℕ) (hj : j < base.length) :
    (gfftStore P base inpIx inpShape in_ax out_ax ftm izc ozc hm w alpha)[j]? =
      base[j]? := by
  unfold gfftStore
  rcases hstmts : gfftStmts P inpIx inpShape in_ax out_ax ftm izc ozc hm w alpha
    with e | l
  · simp [hstmts]
  · simp only [hstmts]
    exact runStmts_frame base l [] j hj

theorem gfft_store_frame_witness :
    (0 : ℕ) < 1 ∧
    (gfftStore trivPrims [fun _ => (5 : ℤ)] 0 [2] (.plain []) (.plain [])
      (.scalar "fft") (.scalar true) (.scalar true) (.scalar false) 6 (3/2))[0]? =
      ([fun _ => (5 : ℤ)] : List (NDArr ℤ))[0]? :=
  ⟨by decide, gfft_store_frame trivPrims [fun _ => (5 : ℤ)] 0 [2] (.plain [])
    (.plain []) (.scalar "fft") (.scalar true) (.scalar true) (.scalar false)
    6 (3/2) 0 (by decide)⟩

theorem cisC_conj (c : ℝ) : (starRingEnd ℂ) (cisC c) = cisC (-c) := by
  apply Complex.ext <;> simp [cisC]

theorem getD_map_conj (v : List ℂ) (j : ℕ) :
    (v.map (starRingEnd ℂ)).getD j 0 = (starRingEnd ℂ) (v.getD j 0) := by
  simp only [List.getD, List.getElem?_map]
  rcases h : v[j]? with _ | x <;> simp [h]

/-- Claim C10. The brute-force oracle transforms `dft` and `idft` differ
only in the sign of the exponential phase and share the same `1/M`
normalization; consequently `idft(v, a, b)` equals the complex conjugate
of `dft` applied to the conjugated values, including agreement of the
error behavior of the two functions. -/
theorem idft_eq_conj_dft_conj (v : List ℂ) (a b : List (List ℝ)) :
    idft v a b =
      Except.map (fun l => l.map (starRingEnd ℂ)) (dft (v.map (starRingEnd ℂ)) a b) := by
  unfold idft dft
  by_cases h1 : b.length ≠ a.length
  · rw [if_pos h1, if_pos h1]
    rfl
  · rw [if_neg h1, if_neg h1]
    cases b with
    | nil => rfl
    | cons o0 rest =>
      simp only [List.length_map]
      by_cases hc : (∀ x ∈ a, x.length = v.length) ∧ (∀ x ∈ o0 :: rest, x.length = o0.length)
      · rw [if_pos hc, if_pos hc]
        simp only [Except.map, List.map_map]
        congr 1
        apply List.map_congr_left
        intro i _
        simp only [Function.comp_apply]
        rw [map_div₀, map_natCast, map_list_sum, List.map_map]
        congr 1
        congr 1
        apply List.map_congr_left
        intro j _
        simp only [Function.comp_apply]
        rw [map_mul, getD_map_conj, Complex.conj_conj, cisC_conj]
        congr 1
        ring_nf
      · rw [if_neg hc, if_neg hc]
        rfl

end GFFT
